import Mathlib

/-!
Verification development for the CursorAugment2 reverse proxy.

The definitions below are a shallow embedding of the request-dispatch
engine: the concurrency ledger and store client of `lib/redis.ts`
(`src/unnamed/part_000`), and the handler pipeline of `src/api/proxy.ts`.
Redis state is modelled as a total map from source ids to integer
counters together with a log of the primitive operations issued
(`INCR`/`DECR`/`EXPIRE`/`SET`); the Redis key `concurrency:{id}` is
represented by the id itself.  JavaScript `try/catch` around store
operations is modelled by a `storeOk : Bool` parameter selecting the
happy path or the catch branch.  JavaScript `||` defaulting (under which
`0` and the empty string are falsy) is modelled explicitly.
-/

/-- A primitive Redis operation issued by the concurrency ledger,
recorded most-recent-first. -/
inductive RedisOp where
  | incr (key : String)
  | decr (key : String)
  | expire (key : String) (seconds : Int)
  | setVal (key : String) (v : Int)
deriving DecidableEq, Repr

/-- The Redis state seen by the concurrency ledger: counter values per
source id (absent keys read as 0, as Redis `INCR` treats them) and the
log of operations issued so far. -/
structure ConcState where
  counters : String → Int
  ops : List RedisOp

/-- Pointwise update of a counter map. -/
def setCounter (f : String → Int) (id : String) (v : Int) : String → Int :=
  fun k => if k = id then v else f k

/-- Result record of `incrementConcurrency` (part_000:667-694). -/
structure ConcResult where
  allowed : Bool
  current : Int
deriving DecidableEq, Repr

/-- `incrementConcurrency(id, limit)` from part_000:667-694.  Atomically
increments the counter, sets a 600 s TTL when the new value is 1, and
reverts (plain `DECR`, no clamp) returning `allowed=false` when the new
value is `>= limit`.  The `catch` branch (storeOk = false) returns
`allowed=false, current=9999` without touching the store. -/
def incrementConcurrency (storeOk : Bool) (st : ConcState) (id : String)
    (limit : Int) : ConcResult × ConcState :=
  if storeOk then
    let current := st.counters id + 1
    let st1 : ConcState := ⟨setCounter st.counters id current, .incr id :: st.ops⟩
    let st2 : ConcState := if current = 1 then ⟨st1.counters, .expire id 600 :: st1.ops⟩ else st1
    if current ≥ limit then
      (⟨false, current⟩, ⟨setCounter st2.counters id (current - 1), .decr id :: st2.ops⟩)
    else
      (⟨true, current⟩, st2)
  else
    (⟨false, 9999⟩, st)

/-- `decrementConcurrency(id)` from part_000:700-711: decrement, and if
the result is negative write 0 back.  Errors are swallowed (the catch
branch leaves the store untouched). -/
def decrementConcurrency (storeOk : Bool) (st : ConcState) (id : String) : ConcState :=
  if storeOk then
    let v := st.counters id - 1
    let st1 : ConcState := ⟨setCounter st.counters id v, .decr id :: st.ops⟩
    if v < 0 then ⟨setCounter st1.counters id 0, .setVal id 0 :: st1.ops⟩ else st1
  else st

/-- JavaScript `x || d` for an optional numeric setting (proxy.ts:317):
`undefined` and `0` are falsy and yield the default. -/
def jsOrNum (o : Option Int) (d : Int) : Int :=
  match o with
  | some v => if v = 0 then d else v
  | none => d

/-- JavaScript `Number(x) || d` for an already-numeric value
(proxy.ts:369 and :402): `0` yields the default. -/
def jsNumOr (v d : Int) : Int :=
  if v = 0 then d else v

/-- The empty ledger state: every counter reads 0, no operations issued. -/
def stZero : ConcState := ⟨fun _ => 0, []⟩

mutual
/-- Parsed JSON values, the shape `rewriteModelName` (proxy.ts:33-64)
traverses.  Arrays and objects are represented by the mutual types
`JsonList` and `JsonFields`. -/
inductive Json where
  | null : Json
  | bool (b : Bool) : Json
  | num (n : Int) : Json
  | str (s : String) : Json
  | arr (items : JsonList) : Json
  | obj (fields : JsonFields) : Json
inductive JsonList where
  | nil : JsonList
  | cons (head : Json) (tail : JsonList) : JsonList
inductive JsonFields where
  | nil : JsonFields
  | cons (key : String) (value : Json) (tail : JsonFields) : JsonFields
end

/-- Case-insensitive prefix test on character lists (the semantics of a
JavaScript regex with the `i` flag over an escaped, hence literal,
pattern). -/
def isPrefixCI : List Char → List Char → Bool
  | [], _ => true
  | _ :: _, [] => false
  | a :: as, b :: bs => (a.toLower == b.toLower) && isPrefixCI as bs

/-- One global, leftmost, non-overlapping, case-insensitive literal
replacement pass — the behaviour of
`s.replace(new RegExp(escaped(pat), 'gi'), rep)` at proxy.ts:42-43
(the replacement string is inserted verbatim).  The `fuel` argument only
bounds the recursion; each iteration consumes at least one character, so
`fuel = l.length` (as used by `replaceCI`) never runs out. -/
def replaceCIFuel (pat rep : List Char) : Nat → List Char → List Char
  | 0, l => l
  | _ + 1, [] => []
  | fuel + 1, c :: rest =>
      if isPrefixCI pat (c :: rest) then
        rep ++ replaceCIFuel pat rep fuel (rest.drop (pat.length - 1))
      else
        c :: replaceCIFuel pat rep fuel rest

/-- String-level wrapper for the case-insensitive global replacement. -/
def replaceCI (s pat rep : String) : String :=
  ⟨replaceCIFuel pat.data rep.data s.data.length s.data⟩

/-- Whether `pat` occurs case-insensitively anywhere in the list. -/
def containsCIAux (pat : List Char) : List Char → Bool
  | [] => isPrefixCI pat []
  | c :: rest => isPrefixCI pat (c :: rest) || containsCIAux pat rest

/-- Whether `pat` occurs case-insensitively anywhere in `s`. -/
def containsCI (s pat : String) : Bool := containsCIAux pat.data s.data

mutual
/-- The recursive body of `rewriteModelName` (proxy.ts:39-63): strings
get the case-insensitive replacement, arrays and objects are traversed,
all other values pass through. -/
def rewriteJson (actualModel displayModel : String) : Json → Json
  | .str s => .str (replaceCI s actualModel displayModel)
  | .arr xs => .arr (rewriteJsonList actualModel displayModel xs)
  | .obj fs => .obj (rewriteJsonFields actualModel displayModel fs)
  | j => j
def rewriteJsonList (actualModel displayModel : String) : JsonList → JsonList
  | .nil => .nil
  | .cons h t =>
      .cons (rewriteJson actualModel displayModel h)
        (rewriteJsonList actualModel displayModel t)
def rewriteJsonFields (actualModel displayModel : String) : JsonFields → JsonFields
  | .nil => .nil
  | .cons k v t =>
      .cons k (rewriteJson actualModel displayModel v)
        (rewriteJsonFields actualModel displayModel t)
end

/-- `rewriteModelName(data, actualModel, displayModel)` from
proxy.ts:33-64.  The guard at line 34 returns the data unchanged when
either model name is falsy (empty). -/
def rewriteModelName (data : Json) (actualModel displayModel : String) : Json :=
  if actualModel = "" ∨ displayModel = "" then data
  else rewriteJson actualModel displayModel data

mutual
/-- No string value inside the JSON contains a case-insensitive
occurrence of `pat`. -/
def jsonNoCI (pat : String) : Json → Bool
  | .str s => !containsCI s pat
  | .arr xs => jsonListNoCI pat xs
  | .obj fs => jsonFieldsNoCI pat fs
  | _ => true
def jsonListNoCI (pat : String) : JsonList → Bool
  | .nil => true
  | .cons h t => jsonNoCI pat h && jsonListNoCI pat t
def jsonFieldsNoCI (pat : String) : JsonFields → Bool
  | .nil => true
  | .cons _ v t => jsonNoCI pat v && jsonFieldsNoCI pat t
end

/-- Per-request streaming lifecycle state (proxy.ts:734-758): the
release guard `concurrencyIdToDecrement` (cleared before the decrement
is issued), the usage guard `usageIncremented`, the decrements issued so
far, and the number of usage store-writes performed. -/
structure StreamLifecycle where
  concurrencyIdToDecrement : Option String
  usageIncremented : Bool
  decrements : List String
  usageWrites : Nat
deriving DecidableEq, Repr

/-- `safeDecrement` (proxy.ts:736-743): null the guard first, then
decrement, so a second call does nothing. -/
def safeDecrement (ctx : StreamLifecycle) : StreamLifecycle :=
  match ctx.concurrencyIdToDecrement with
  | some id =>
      { ctx with concurrencyIdToDecrement := none, decrements := id :: ctx.decrements }
  | none => ctx

/-- `safeIncrementUsage` (proxy.ts:746-758): when usage should count and
the `usageIncremented` guard is still clear, set the guard and perform
the one store write; otherwise do nothing. -/
def safeIncrementUsage (shouldCountUsage : Bool) (ctx : StreamLifecycle) : StreamLifecycle :=
  if shouldCountUsage && !ctx.usageIncremented then
    { ctx with usageIncremented := true, usageWrites := ctx.usageWrites + 1 }
  else ctx

/-- Stream termination events (proxy.ts:775-790, 802-830, 871-876). -/
inductive StreamEvent where
  | clientClose
  | resFinish
  | resError
  | upstreamDone
  | streamError
deriving DecidableEq, Repr

/-- Handler attached to each termination event: client close, response
finish, response error and stream error all run `safeDecrement`;
upstream EOF (`done`, proxy.ts:805-829) runs `safeDecrement` and then
`safeIncrementUsage`. -/
def handleStreamEvent (shouldCountUsage : Bool) (ev : StreamEvent)
    (ctx : StreamLifecycle) : StreamLifecycle :=
  match ev with
  | .upstreamDone => safeIncrementUsage shouldCountUsage (safeDecrement ctx)
  | _ => safeDecrement ctx

/-- Run a sequence of termination events in order. -/
def runStreamEvents (shouldCountUsage : Bool) (evs : List StreamEvent)
    (ctx : StreamLifecycle) : StreamLifecycle :=
  match evs with
  | [] => ctx
  | e :: rest =>
      runStreamEvents shouldCountUsage rest (handleStreamEvent shouldCountUsage e ctx)

/-- Initial lifecycle state of a streaming request: the guard holds the
acquired source id (or `none` on the queued-default path), no usage
increment yet. -/
def initStream (ownerId : Option String) : StreamLifecycle := ⟨ownerId, false, [], 0⟩

/-- The beginning of the non-streaming epilogue (proxy.ts:878-882):
`response.json()` is awaited first and only when it resolves does the
handler release the concurrency slot.  A rejected body parse propagates
to the outer catch (proxy.ts:938-961), which performs no release. -/
def nonStreamRelease (body : Except String Json) (concId : Option String)
    (st : ConcState) : Except String Json × ConcState :=
  match body with
  | .error e => (.error e, st)
  | .ok data =>
      match concId with
      | some id => (.ok data, decrementConcurrency true st id)
      | none => (.ok data, st)

/-- A ledger state with every counter at 1 — the view right after a
successful acquisition on any single source. -/
def stOne : ConcState := ⟨fun _ => 1, []⟩

/-- Lifecycle invariant backing the usage guard: at most one write, and
none before the guard is set. -/
def usageInv (ctx : StreamLifecycle) : Prop :=
  ctx.usageWrites ≤ 1 ∧ (ctx.usageIncremented = false → ctx.usageWrites = 0)

/-- `usage_today` of a key record (lib/types.ts:17-20). -/
structure UsageToday where
  date : String
  count : Nat
deriving DecidableEq, Repr

/-- `RedisKeyData` (lib/types.ts:14-26). -/
structure RedisKeyData where
  expiry : String
  daily_limit : Nat
  usage_today : UsageToday
  session_timeout_minutes : Nat
  selected_model : Option String
  selected_api_profile_id : Option String
  last_request_timestamp : Option Int
  last_conversation_id : Option String
deriving DecidableEq, Repr

/-- Result of `incrementUsage` (per CODEBASE_INDEX.md:407 and the
consumers at proxy.ts:750-756, 902-908). -/
structure IncUsageResult where
  allowed : Bool
  currentUsage : Nat
  limit : Nat
  shouldIncrement : Bool
deriving DecidableEq, Repr

/-- Modelled from the spec: the deployed two-argument
`incrementUsage(keyName, conversationId)` of `lib/redis.ts` is not
present under `src/` — `src/unnamed/part_000` is an older snapshot whose
`incrementUsage` (lines 281-313) takes no `conversationId` and performs
no dedup, and it also lacks `checkUsageLimit`, which proxy.ts:3 imports;
`src/api/proxy.ts:749,901` calls the two-argument version documented in
`CODEBASE_INDEX.md:407`.  Modelled from spec §4.3: deny when
`count ≥ daily_limit`; when the provided `conversationId` equals
`last_conversation_id` and `now − last_request_timestamp < 60 000 ms`,
return `shouldIncrement=false` without mutating; otherwise increment the
count and stamp `last_conversation_id`/`last_request_timestamp`. -/
def incrementUsage (data : RedisKeyData) (conversationId : Option String)
    (now : Int) : IncUsageResult × RedisKeyData :=
  if data.usage_today.count ≥ data.daily_limit then
    (⟨false, data.usage_today.count, data.daily_limit, false⟩, data)
  else
    let isDup : Bool :=
      match conversationId, data.last_conversation_id, data.last_request_timestamp with
      | some cid, some lastCid, some ts => cid == lastCid && decide (now - ts < 60000)
      | _, _, _ => false
    if isDup then
      (⟨true, data.usage_today.count, data.daily_limit, false⟩, data)
    else
      (⟨true, data.usage_today.count + 1, data.daily_limit, true⟩,
        { data with
            usage_today := ⟨data.usage_today.date, data.usage_today.count + 1⟩,
            last_conversation_id := conversationId,
            last_request_timestamp := some now })

/-- `ModelConfig` (lib/types.ts:50-53). -/
structure ModelConfig where
  name : String
  system_prompt : String
deriving DecidableEq, Repr

/-- `system_prompt_format` values (lib/types.ts:46). -/
inductive SystemPromptFormat where
  | auto
  | anthropic
  | openai
  | both
  | user_message
  | inject_first_user
  | disabled
deriving DecidableEq, Repr

/-- `ProxySettings` (part_000:364-372), plus `system_prompt_format`
which proxy.ts:381 reads from the same object. -/
structure ProxySettings where
  api_url : String
  api_key : String
  model_display : String
  model_actual : String
  system_prompt : Option String
  concurrency_limit : Option Int
  models : List (String × ModelConfig)
  system_prompt_format : Option SystemPromptFormat
deriving DecidableEq, Repr

/-- Whitespace for the purposes of `.trim()` (ASCII whitespace; the
prompts involved contain no exotic Unicode spacing). -/
def isJsWs (c : Char) : Bool :=
  c == ' ' || c == '\t' || c == '\n' || c == '\r' || c == '\x0b' || c == '\x0c'

/-- JavaScript `s.trim()`. -/
def jsTrim (s : String) : String :=
  ⟨((s.data.dropWhile isJsWs).reverse.dropWhile isJsWs).reverse⟩

/-- JavaScript `s.substring(0, n)`. -/
def jsTake (s : String) (n : Nat) : String := ⟨s.data.take n⟩

/-- The trim/discard/truncate pipeline of proxy.ts:515-527 combined with
the injection gate at :546 (`if (systemPrompt && ...)`): an absent or
empty (falsy) prompt injects nothing; a whitespace-only prompt is
discarded; otherwise the trimmed prompt, truncated to 10 000
characters, is the one injected. -/
def normalizePrompt : Option String → Option String
  | none => none
  | some s =>
      if s = "" then none
      else if jsTrim s = "" then none
      else some (jsTake (jsTrim s) 10000)

/-- Prompt-source resolution of proxy.ts:496-503: start from
`settings?.system_prompt`; when the key's selected model id is truthy
and present in `settings.models`, the model-config's prompt replaces it
unconditionally — even when that prompt is empty. -/
def resolveSystemPrompt (settings : Option ProxySettings)
    (keySelectedModel : Option String) : Option String :=
  let sp0 : Option String := settings.bind (fun s => s.system_prompt)
  match keySelectedModel, settings with
  | some m, some s =>
      if m = "" then sp0
      else
        match List.lookup m s.models with
        | some cfg => some cfg.system_prompt
        | none => sp0
  | _, _ => sp0

/-- The prompt `P` the handler injects (`none` when injection is
skipped), before the per-profile bypass flag is consulted. -/
def injectedPrompt (settings : Option ProxySettings)
    (keySelectedModel : Option String) : Option String :=
  normalizePrompt (resolveSystemPrompt settings keySelectedModel)

/-- A raw value read from the store at a key-record key
(part_000:41-94): the current daily-limit schema, a legacy record
carrying old limit hints, or a non-object value. -/
inductive StoredVal where
  | record (d : RedisKeyData)
  | legacy (expiry : String) (maxConcurrentUsers maxActivations maxIps : Option Nat)
  | nonObject
deriving DecidableEq, Repr

/-- `getKeyData` from part_000:41-94: missing keys and non-object values
give `null`; a current-schema record is day-rolled when its date is
stale; a legacy record is migrated with `daily_limit = hint × 50` (100
without a hint).  The `catch` at part_000:90-93 turns any store error
into `null` (storeOk = false). -/
def getKeyData (storeOk : Bool) (today : String) (stored : Option StoredVal) :
    Option RedisKeyData :=
  if storeOk then
    match stored with
    | none => none
    | some .nonObject => none
    | some (.record d) =>
        if d.usage_today.date ≠ today then some { d with usage_today := ⟨today, 0⟩ }
        else some d
    | some (.legacy expiry mcu ma mi) =>
        let dailyLimit : Nat :=
          match mcu with
          | some v => v * 50
          | none =>
              match ma with
              | some v => v * 50
              | none =>
                  match mi with
                  | some v => v * 50
                  | none => 100
        some ⟨expiry, dailyLimit, ⟨today, 0⟩, 15, none, none, none, none⟩
  else none

/-- `isExpired(expiryDate)` from part_000:349-358: both dates are
truncated to midnight and compared; on valid `YYYY-MM-DD` strings this
coincides with lexicographic comparison (the expiry day itself is still
valid). -/
def isExpired (expiryDate today : String) : Bool := decide (expiryDate < today)

/-- Character-list matcher backing `strStartsWith`. -/
def startsWithChars : List Char → List Char → Bool
  | [], _ => true
  | _ :: _, [] => false
  | a :: as, b :: bs => (a == b) && startsWithChars as bs

/-- JavaScript `s.startsWith(p)`. -/
def strStartsWith (s p : String) : Bool := startsWithChars p.data s.data

/-- Outcome of the authentication prefix of the handler. -/
inductive AuthResult where
  | missingAuth
  | invalidKey
  | expired (d : RedisKeyData)
  | authed (d : RedisKeyData)
deriving DecidableEq, Repr

/-- The authentication steps of the handler (proxy.ts:193-212): missing
or malformed Bearer header → 401; `getKeyData` null → 401 "Invalid API
key"; expired key → 403; otherwise the pipeline continues. -/
def authStep (authHeader : Option String) (storeOk : Bool) (today : String)
    (stored : Option StoredVal) : AuthResult :=
  match authHeader with
  | none => .missingAuth
  | some h =>
      if strStartsWith h "Bearer " = false then .missingAuth
      else
        match getKeyData storeOk today stored with
        | none => .invalidKey
        | some d => if isExpired d.expiry today then .expired d else .authed d

/-- HTTP status written for each auth outcome (proxy.ts:195, 204, 211);
`none` means the pipeline continues. -/
def authHttpStatus : AuthResult → Option Nat
  | .missingAuth => some 401
  | .invalidKey => some 401
  | .expired _ => some 403
  | .authed _ => none

/-- `getModelConfigs` (part_000:517-543, cache layer elided): the model
map from settings; the catch returns the empty map on a store error. -/
def getModelConfigs (storeOk : Bool) (settings : Option ProxySettings) :
    List (String × ModelConfig) :=
  if storeOk then
    match settings with
    | some s => s.models
    | none => []
  else []

/-- `getAnnouncements` (part_000:883-891): the stored list, or the empty
list on a store error (announcements are represented by their ids). -/
def getAnnouncements (storeOk : Bool) (stored : List String) : List String :=
  if storeOk then stored else []

/-- `APIProfile` (lib/types.ts:34-47); fields the selector does not read
are omitted. -/
structure APIProfile where
  id : String
  name : String
  api_key : String
  api_url : String
  model_actual : Option String
  is_active : Bool
  disable_system_prompt_injection : Option Bool
  system_prompt_format : Option SystemPromptFormat
deriving DecidableEq, Repr

/-- `BackupProfile` (lib/types.ts:29-31): a profile plus its
concurrency limit. -/
structure BackupProfile extends APIProfile where
  concurrency_limit : Int
deriving DecidableEq, Repr

/-- Kind of the selected source (proxy.ts:328). -/
inductive SourceType where
  | default
  | profile
  | backup
deriving DecidableEq, Repr

/-- `activeSource` shape (proxy.ts:326-335). -/
structure ActiveSource where
  id : String
  type : SourceType
  apiBase : String
  apiKey : String
  modelActual : Option String
  name : String
  disableSystemPromptInjection : Option Bool
  systemPromptFormat : Option SystemPromptFormat
deriving DecidableEq, Repr

/-- JavaScript `a || b` on possibly-absent strings (empty is falsy),
with the all-absent case mapped to the empty string. -/
def jsOrStr (a : Option String) (b : Option String) : String :=
  match a with
  | some s => if s = "" then (match b with | some t => t | none => "") else s
  | none => match b with | some t => t | none => ""

/-- proxy.ts:21. -/
def DEFAULT_API_BASE : String := "https://code.newcli.com/claude/droid/v1"

/-- The default `activeSource` (proxy.ts:374-382 when a slot was
acquired, :427-434 for the queued fallback, which carries neither a
`systemPromptFormat` nor a slot). -/
def defaultSource (settings : Option ProxySettings) (envKey : Option String)
    (queued : Bool) : ActiveSource :=
  { id := "default"
    type := .default
    apiBase := jsOrStr (settings.map (fun s => s.api_url)) (some DEFAULT_API_BASE)
    apiKey := jsOrStr (settings.map (fun s => s.api_key)) envKey
    modelActual := settings.map (fun s => s.model_actual)
    name := if queued then "Default API (Queued)" else "Default API"
    disableSystemPromptInjection := none
    systemPromptFormat :=
      if queued then none else settings.bind (fun s => s.system_prompt_format) }

/-- A backup `activeSource` (proxy.ts:407-414). -/
def backupSource (b : BackupProfile) : ActiveSource :=
  { id := b.id
    type := .backup
    apiBase := b.api_url
    apiKey := b.api_key
    modelActual := b.model_actual
    name := "Backup: " ++ b.name
    disableSystemPromptInjection := none
    systemPromptFormat := none }

/-- A pinned-profile `activeSource` (proxy.ts:347-356). -/
def profileSource (p : APIProfile) : ActiveSource :=
  { id := p.id
    type := .profile
    apiBase := p.api_url
    apiKey := p.api_key
    modelActual := p.model_actual
    name := "Profile: " ++ p.name
    disableSystemPromptInjection := p.disable_system_prompt_injection
    systemPromptFormat := p.system_prompt_format }

/-- Waterfall step 2 (proxy.ts:391-422): iterate the stored backups in
order, skip inactive ones, `try_acquire` each active one with
`Number(limit) || 10`, and return the first success together with its
id as `concurrencyIdToDecrement`. -/
def tryBackups (storeOk : Bool) (backups : List BackupProfile) (st : ConcState) :
    Option (ActiveSource × String) × ConcState :=
  match backups with
  | [] => (none, st)
  | b :: rest =>
      if b.is_active = false then tryBackups storeOk rest st
      else
        let res := incrementConcurrency storeOk st b.id (jsNumOr b.concurrency_limit 10)
        if res.1.allowed then (some (backupSource b, b.id), res.2)
        else tryBackups storeOk rest res.2

/-- The source-selection block of the handler (proxy.ts:343-445):
Strategy A (user-pinned profile — no acquisition) falling through to
the waterfall: default with `Number(settings?.concurrency_limit || 100)
|| 100`, then the backups in stored order, then the queued default
(slot-less) when a default api key exists; `none` means the 503 path.
The result carries the source, its `concurrencyIdToDecrement`, and the
ledger state. -/
def selectActiveSource (storeOk : Bool) (keyData : RedisKeyData)
    (profiles : List (String × APIProfile)) (settings : Option ProxySettings)
    (envKey : Option String) (backups : List BackupProfile) (st : ConcState) :
    Option (ActiveSource × Option String) × ConcState :=
  let pinned : Option ActiveSource :=
    match keyData.selected_api_profile_id with
    | some pid =>
        if pid = "" then none
        else
          match List.lookup pid profiles with
          | some p => if p.is_active then some (profileSource p) else none
          | none => none
    | none => none
  match pinned with
  | some src => (some (src, none), st)
  | none =>
      let defaultApiKey := jsOrStr (settings.map (fun s => s.api_key)) envKey
      let step1 : Option (ActiveSource × Option String) × ConcState :=
        if defaultApiKey ≠ "" then
          let numericLimit :=
            jsNumOr (jsOrNum (settings.bind (fun s => s.concurrency_limit)) 100) 100
          let res := incrementConcurrency storeOk st "default" numericLimit
          if res.1.allowed then
            (some (defaultSource settings envKey false, some "default"), res.2)
          else (none, res.2)
        else (none, st)
      match step1 with
      | (some r, st1) => (some r, st1)
      | (none, st1) =>
          match tryBackups storeOk backups st1 with
          | (some (src, bid), st2) => (some (src, some bid), st2)
          | (none, st2) =>
              if defaultApiKey ≠ "" then
                (some (defaultSource settings envKey true, none), st2)
              else (none, st2)

/-- Identifiers in scope at proxy.ts:916 — the module-level bindings and
every handler local declared on the path to that line.  `modelDisplay`
is among them (declared at line 466); `displayModel` is not — it exists
only as a parameter name of `rewriteModelName` (line 33) and
`rewriteSSEChunk` (line 73). -/
def handlerScopeAt916 : List String :=
  ["httpsAgent", "DEFAULT_API_BASE", "PROXY_VERSION", "rewriteModelName",
   "rewriteSSEChunk", "buildUpstreamUrl", "handler",
   "getKeyData", "isExpired", "getSettings", "incrementUsage",
   "checkUsageLimit", "getAPIProfile", "getBackupProfiles",
   "incrementConcurrency", "decrementConcurrency", "validateKeyWithUsage",
   "generateCorrelationId", "setCorrelationId", "logInfo", "logError",
   "createPerformanceTracker", "metrics",
   "correlationId", "userAgent", "forwarded", "realIp", "clientIP",
   "perfTracker", "requestStart", "req", "res", "clientPath", "authHeader",
   "userToken", "keyData", "requestBody", "isCountTokensEndpoint",
   "shouldCountUsage", "conversationId", "currentUsageCheck", "settings",
   "defaultApiBase", "defaultApiKey", "defaultConcurrencyLimit",
   "userSelectedProfileId", "activeSource", "concurrencyIdToDecrement",
   "apiBase", "apiKey", "profileModelActual", "apiUrl", "modelDisplay",
   "modelActual", "systemPrompt", "keySelectedModel", "systemPromptSource",
   "shouldBypassSystemPrompt", "controller", "timeoutId", "response",
   "data", "duration"]

/-- JavaScript identifier resolution over the bound environment: an
unbound name raises a ReferenceError. -/
def lookupVar (env : List (String × Json)) (x : String) : Except String Json :=
  match env with
  | [] => .error ("ReferenceError: " ++ x ++ " is not defined")
  | (k, v) :: rest => if k = x then .ok v else lookupVar rest x

/-- The expression at proxy.ts:916,
`rewriteModelName(data, modelActual, displayModel)`: arguments evaluate
left to right; the third argument is the identifier `displayModel`. -/
def line916Rewrite (env : List (String × Json)) : Except String Json := do
  let d ← lookupVar env "data"
  let a ← lookupVar env "modelActual"
  let disp ← lookupVar env "displayModel"
  match a, disp with
  | .str sa, .str sd => pure (rewriteModelName d sa sd)
  | _, _ => pure d

/-- The status the caller receives from the non-streaming epilogue: 200
with the rewritten body when line 916 evaluates, or 500 through the
outer catch (proxy.ts:938-961) when it throws. -/
def nonStreamStatus (env : List (String × Json)) : Nat :=
  match line916Rewrite env with
  | .ok _ => 200
  | .error _ => 500

-- Concrete records used by counterexamples and witnesses.

/-- A key record carrying a recorded conversation turn. -/
def c1Key : RedisKeyData :=
  ⟨"2099-01-01", 10, ⟨"2026-10-11", 3⟩, 15, none, none, some 1000,
    some "203.0.113.5:Mozilla"⟩

/-- A key record with no recorded conversation turn. -/
def c1Fresh : RedisKeyData :=
  ⟨"2099-01-01", 10, ⟨"2026-10-11", 3⟩, 15, none, none, none, none⟩

/-- Settings with a global prompt and a model config whose prompt is
empty. -/
def c5Settings : ProxySettings :=
  ⟨"https://h", "k", "Display", "m-y", some "G", none, [("m", ⟨"M", ""⟩)], none⟩

/-- Settings with a global prompt and a model config with prompt "P". -/
def c5Good : ProxySettings :=
  ⟨"https://h", "k", "Display", "m-y", some "G", none, [("m", ⟨"M", "P"⟩)], none⟩

/-- A valid, unexpired key record with no pinned profile. -/
def c6Key : RedisKeyData :=
  ⟨"2099-01-01", 100, ⟨"2026-10-11", 0⟩, 15, none, none, none, none⟩

/-- Settings whose default api key is configured. -/
def c8Settings : ProxySettings :=
  ⟨"https://h/v1", "sk", "Display", "m-y", none, none, [], none⟩

def c8B0 : BackupProfile :=
  ⟨⟨"b0", "B0", "k0", "https://b0.example", none, false, none, none⟩, 10⟩

def c8B1 : BackupProfile :=
  ⟨⟨"b1", "B1", "k1", "https://b1.example", none, true, none, none⟩, 10⟩

def c8B2 : BackupProfile :=
  ⟨⟨"b2", "B2", "k2", "https://b2.example", none, true, none, none⟩, 10⟩

def c8B3 : BackupProfile :=
  ⟨⟨"b3", "B3", "k3", "https://b3.example", none, true, none, none⟩, 10⟩

/-- Default saturated, every backup idle. -/
def c8St1 : ConcState := ⟨fun k => if k = "default" then 1000 else 0, []⟩

/-- Default and `b1` saturated, `b2` and `b3` idle. -/
def c8St2 : ConcState := ⟨fun k => if k = "b2" ∨ k = "b3" then 0 else 1000, []⟩

/-- Every source saturated. -/
def c8St3 : ConcState := ⟨fun _ => 1000, []⟩

/-- The handler environment at line 916 of a typical non-streaming
request: `data`, `modelActual` and `modelDisplay` bound, `displayModel`
not. -/
def c4Env : List (String × Json) :=
  [("data", Json.str "ok"),
   ("modelActual", Json.str "claude-3-5-haiku-20241022"),
   ("modelDisplay", Json.str "Claude-Opus-4.5-VIP")]

/-- An active backup whose configured concurrency limit is 0. -/
def c7B0 : BackupProfile :=
  ⟨⟨"bz", "BZ", "kz", "https://bz.example", none, true, none, none⟩, 0⟩

/-- Settings whose default concurrency limit is configured as 0. -/
def c7Settings : ProxySettings :=
  ⟨"https://h/v1", "sk", "Display", "m-y", none, some 0, [], none⟩

-- Basic characterization lemmas for the ledger, shared by the claim
-- theorems below.

theorem setCounter_self (f : String → Int) (id : String) (v : Int) :
    setCounter f id v id = v := if_pos rfl

theorem setCounter_other (f : String → Int) (id : String) (v : Int) (k : String)
    (h : k ≠ id) : setCounter f id v k = f k := if_neg h

theorem incConc_fst (st : ConcState) (id : String) (limit : Int) :
    (incrementConcurrency true st id limit).1 =
      if st.counters id + 1 ≥ limit then ⟨false, st.counters id + 1⟩
      else ⟨true, st.counters id + 1⟩ := by
  simp only [incrementConcurrency, if_true]
  split_ifs <;> rfl

theorem incConc_snd_counters (st : ConcState) (id : String) (limit : Int) :
    (incrementConcurrency true st id limit).2.counters =
      fun k =>
        if st.counters id + 1 ≥ limit then st.counters k
        else if k = id then st.counters id + 1 else st.counters k := by
  funext k
  by_cases hk : k = id
  · subst hk
    simp only [incrementConcurrency, if_true]
    split_ifs <;> simp_all [setCounter_self]
  · simp only [incrementConcurrency, if_true]
    split_ifs <;> simp_all [setCounter_other _ _ _ _ hk]

theorem incConc_fail_counters (st : ConcState) (id : String) (limit : Int)
    (h : st.counters id + 1 ≥ limit) :
    (incrementConcurrency true st id limit).2.counters = st.counters := by
  rw [incConc_snd_counters]
  funext k
  simp [h]

/-- Claim C3, counterexample: with the counter at `concurrency:default`
reading 0 and limit 1, the incremented value (1) equals the limit
exactly, yet `incrementConcurrency` rejects — part_000:682 tests
`current >= limit`, not `current > limit` — refuting the claim that
equality yields `allowed=true`. -/
theorem claim3_counterexample :
    stZero.counters "default" + 1 = 1 ∧
    (incrementConcurrency true stZero "default" 1).1.allowed = false := by
  exact ⟨by decide, by decide⟩

/-- Claim C3 (amended): `try_acquire(sourceId, limit)` returns
`allowed=false` (after decrementing back) exactly when the incremented
counter value is greater than **or equal to** `limit`; in particular a
new value equal to `limit` is rejected and the counter restored, so
`allowed=true` holds only when the new value is strictly below the
limit (at most `limit - 1` slots are ever in use). -/
theorem claim3_incrementConcurrency_ge_limit_rejects (st : ConcState) (id : String)
    (limit : Int) :
    ((incrementConcurrency true st id limit).1.allowed = true ↔
      st.counters id + 1 < limit) ∧
    (incrementConcurrency true st id limit).1.current = st.counters id + 1 ∧
    (st.counters id + 1 ≥ limit →
      (incrementConcurrency true st id limit).2.counters = st.counters) := by
  refine ⟨?_, ?_, incConc_fail_counters st id limit⟩ <;>
    rw [incConc_fst] <;> split_ifs with h <;> simp <;> omega

/-- Witness for claim C3's amended theorem at the empty state with limit 1. -/
theorem claim3_witness :
    ((incrementConcurrency true stZero "default" 1).1.allowed = true ↔
      stZero.counters "default" + 1 < 1) ∧
    (incrementConcurrency true stZero "default" 1).1.current =
      stZero.counters "default" + 1 ∧
    (incrementConcurrency true stZero "default" 1).2.counters = stZero.counters :=
  ⟨(claim3_incrementConcurrency_ge_limit_rejects stZero "default" 1).1,
   (claim3_incrementConcurrency_ge_limit_rejects stZero "default" 1).2.1,
   (claim3_incrementConcurrency_ge_limit_rejects stZero "default" 1).2.2 (by decide)⟩

theorem replaceCIFuel_fix (pat rep : List Char) :
    ∀ (fuel : Nat) (l : List Char), containsCIAux pat l = false →
      replaceCIFuel pat rep fuel l = l := by
  intro fuel
  induction fuel with
  | zero => intro l _; rfl
  | succ n ih =>
      intro l h
      cases l with
      | nil => rfl
      | cons c rest =>
          simp only [containsCIAux, Bool.or_eq_false_iff] at h
          simp only [replaceCIFuel, h.1, if_false, Bool.false_eq_true]
          rw [ih rest h.2]

mutual
theorem rewriteJson_fix (a d : String) :
    ∀ j : Json, jsonNoCI a j = true → rewriteJson a d j = j
  | .null, _ => rfl
  | .bool _, _ => rfl
  | .num _, _ => rfl
  | .str s, h => by
      have hc : containsCIAux a.data s.data = false := by
        have h1 : (!containsCI s a) = true := h
        simpa [containsCI] using h1
      show Json.str (replaceCI s a d) = Json.str s
      have : replaceCI s a d = s :=
        congrArg String.mk (replaceCIFuel_fix a.data d.data s.data.length s.data hc)
      rw [this]
  | .arr xs, h => by
      show Json.arr (rewriteJsonList a d xs) = Json.arr xs
      rw [rewriteJsonList_fix a d xs h]
  | .obj fs, h => by
      show Json.obj (rewriteJsonFields a d fs) = Json.obj fs
      rw [rewriteJsonFields_fix a d fs h]
theorem rewriteJsonList_fix (a d : String) :
    ∀ xs : JsonList, jsonListNoCI a xs = true → rewriteJsonList a d xs = xs
  | .nil, _ => rfl
  | .cons j t, h => by
      have h' : jsonNoCI a j = true ∧ jsonListNoCI a t = true := by
        simpa [jsonListNoCI, Bool.and_eq_true] using h
      show JsonList.cons (rewriteJson a d j) (rewriteJsonList a d t) = JsonList.cons j t
      rw [rewriteJson_fix a d j h'.1, rewriteJsonList_fix a d t h'.2]
theorem rewriteJsonFields_fix (a d : String) :
    ∀ fs : JsonFields, jsonFieldsNoCI a fs = true → rewriteJsonFields a d fs = fs
  | .nil, _ => rfl
  | .cons k v t, h => by
      have h' : jsonNoCI a v = true ∧ jsonFieldsNoCI a t = true := by
        simpa [jsonFieldsNoCI, Bool.and_eq_true] using h
      show JsonFields.cons k (rewriteJson a d v) (rewriteJsonFields a d t) =
        JsonFields.cons k v t
      rw [rewriteJson_fix a d v h'.1, rewriteJsonFields_fix a d t h'.2]
end

/-- Claim C9, counterexample: with `actual = "a"` and `display = "aa"`
the rewrite of the string value `"a"` gives `"aa"` after one
application and `"aaaa"` after two, so rewriting twice differs from
rewriting once — the rewrite is not idempotent for every
`(actual, display)` pair. -/
theorem claim9_counterexample :
    rewriteModelName (rewriteModelName (Json.str "a") "a" "aa") "a" "aa" ≠
      rewriteModelName (Json.str "a") "a" "aa" := by
  have h1 : rewriteModelName (Json.str "a") "a" "aa" = Json.str "aa" := by rfl
  have h2 : rewriteModelName (Json.str "aa") "a" "aa" = Json.str "aaaa" := by rfl
  rw [h1, h2]
  intro h
  injection h with hs
  exact absurd hs (by decide)

/-- Claim C9 (amended): the rewrite is idempotent on every value whose
single rewrite leaves no residual case-insensitive occurrence of
`actualModel` in any string value — in particular whenever
`displayModel` neither contains `actualModel` (case-insensitively) nor
recreates it at a boundary.  In general a second application can differ
(see the counterexample with `actual="a"`, `display="aa"`). -/
theorem claim9_rewrite_idempotent_without_residual (d : Json) (a disp : String)
    (h : jsonNoCI a (rewriteModelName d a disp) = true) :
    rewriteModelName (rewriteModelName d a disp) a disp =
      rewriteModelName d a disp := by
  by_cases hg : a = "" ∨ disp = ""
  · simp only [rewriteModelName, if_pos hg]
  · simp only [rewriteModelName, if_neg hg] at h ⊢
    exact rewriteJson_fix a disp _ h

/-- Witness for claim C9's amended theorem: the repository's configured
pair (settings defaults at proxy.ts:466-467) on a response whose model
string is exactly the actual model name. -/
theorem claim9_witness :
    rewriteModelName
        (rewriteModelName (Json.str "claude-3-5-haiku-20241022")
          "claude-3-5-haiku-20241022" "Claude-Opus-4.5-VIP")
        "claude-3-5-haiku-20241022" "Claude-Opus-4.5-VIP" =
      rewriteModelName (Json.str "claude-3-5-haiku-20241022")
        "claude-3-5-haiku-20241022" "Claude-Opus-4.5-VIP" :=
  claim9_rewrite_idempotent_without_residual (Json.str "claude-3-5-haiku-20241022")
    "claude-3-5-haiku-20241022" "Claude-Opus-4.5-VIP" (by decide)

theorem usageInv_safeDecrement (ctx : StreamLifecycle) (h : usageInv ctx) :
    usageInv (safeDecrement ctx) := by
  unfold safeDecrement
  cases hc : ctx.concurrencyIdToDecrement <;> simpa [usageInv] using h

theorem usageInv_safeIncrementUsage (sc : Bool) (ctx : StreamLifecycle)
    (h : usageInv ctx) : usageInv (safeIncrementUsage sc ctx) := by
  unfold safeIncrementUsage
  split_ifs with hg
  · rcases h with ⟨h1, h2⟩
    have hu : ctx.usageIncremented = false := by
      cases hx : ctx.usageIncremented
      · rfl
      · simp [hx] at hg
    refine ⟨?_, ?_⟩
    · simp [h2 hu]
    · intro hfalse
      simp at hfalse
  · exact h

theorem usageInv_handle (sc : Bool) (ev : StreamEvent) (ctx : StreamLifecycle)
    (h : usageInv ctx) : usageInv (handleStreamEvent sc ev ctx) := by
  cases ev <;>
    first
      | exact usageInv_safeIncrementUsage sc _ (usageInv_safeDecrement ctx h)
      | exact usageInv_safeDecrement ctx h

theorem usageInv_run (sc : Bool) (evs : List StreamEvent) :
    ∀ ctx : StreamLifecycle, usageInv ctx → usageInv (runStreamEvents sc evs ctx) := by
  induction evs with
  | nil => intro ctx h; exact h
  | cons e rest ih =>
      intro ctx h
      exact ih _ (usageInv_handle sc e ctx h)

/-- Claim C10: across any sequence of stream-termination events, the
deferred usage increment performs at most one store write, and a second
invocation of `safeIncrementUsage` is a no-op (the `usageIncremented`
guard makes it idempotent). -/
theorem claim10_usage_incremented_at_most_once (sc : Bool) (evs : List StreamEvent)
    (ownerId : Option String) :
    (runStreamEvents sc evs (initStream ownerId)).usageWrites ≤ 1 ∧
    (∀ ctx : StreamLifecycle,
      safeIncrementUsage sc (safeIncrementUsage sc ctx) = safeIncrementUsage sc ctx) := by
  constructor
  · exact (usageInv_run sc evs (initStream ownerId) ⟨by simp [initStream], fun _ => rfl⟩).1
  · intro ctx
    cases hsc : sc <;> cases hu : ctx.usageIncremented <;>
      simp [safeIncrementUsage, hsc, hu]

theorem handle_guard_none (sc : Bool) (ev : StreamEvent) (ctx : StreamLifecycle)
    (h : ctx.concurrencyIdToDecrement = none) :
    (handleStreamEvent sc ev ctx).concurrencyIdToDecrement = none ∧
    (handleStreamEvent sc ev ctx).decrements = ctx.decrements := by
  cases ev <;>
    simp only [handleStreamEvent, safeDecrement, safeIncrementUsage, h] <;>
    (try split_ifs) <;> simp_all

theorem run_guard_none (sc : Bool) (evs : List StreamEvent) :
    ∀ ctx : StreamLifecycle, ctx.concurrencyIdToDecrement = none →
      (runStreamEvents sc evs ctx).decrements = ctx.decrements := by
  induction evs with
  | nil => intro ctx _; rfl
  | cons e rest ih =>
      intro ctx h
      have h2 := handle_guard_none sc e ctx h
      calc (runStreamEvents sc rest (handleStreamEvent sc e ctx)).decrements
          = (handleStreamEvent sc e ctx).decrements := ih _ h2.1
        _ = ctx.decrements := h2.2

theorem handle_guard_some (sc : Bool) (ev : StreamEvent) (ctx : StreamLifecycle)
    (id : String) (h : ctx.concurrencyIdToDecrement = some id) :
    (handleStreamEvent sc ev ctx).concurrencyIdToDecrement = none ∧
    (handleStreamEvent sc ev ctx).decrements = id :: ctx.decrements := by
  cases ev <;>
    simp only [handleStreamEvent, safeDecrement, safeIncrementUsage, h] <;>
    (try split_ifs) <;> simp_all

/-- Claim C2, counterexample: a non-streaming request whose slot was
acquired (counter at 1) and whose upstream body fails to parse —
`response.json()` rejects at proxy.ts:880, before the release at :882 —
terminates through the outer catch with **zero** releases: the
operation log gains no `DECR` and the counter stays at 1, refuting
"exactly one release on every termination path". -/
theorem claim2_counterexample :
    (nonStreamRelease (.error "SyntaxError: Unexpected token")
        (some "default") stOne).2.ops = stOne.ops ∧
    (nonStreamRelease (.error "SyntaxError: Unexpected token")
        (some "default") stOne).2.counters "default" = 1 := by
  exact ⟨rfl, rfl⟩

/-- Claim C2 (amended): exactly one release per successful
`try_acquire` on all modelled termination paths **except** a
body-parse error on the non-streaming path.  On the streaming side any
non-empty sequence of termination events (EOF, caller disconnect,
response finish, response/stream error) yields exactly one decrement,
guarded by `concurrencyIdToDecrement`; the successful non-streaming
path issues exactly one `DECR`; but when `response.json()` rejects, the
error propagates to the outer catch and **no** release occurs (only the
600 s TTL eventually reclaims the slot). -/
theorem claim2_release_exactly_once_except_parse_error
    (sc : Bool) (id : String) (evs : List StreamEvent) (st : ConcState)
    (data : Json) (e : String)
    (hevs : evs ≠ []) (hheld : 1 ≤ st.counters id) :
    (runStreamEvents sc evs (initStream (some id))).decrements = [id] ∧
    (nonStreamRelease (.ok data) (some id) st).2.ops = RedisOp.decr id :: st.ops ∧
    (nonStreamRelease (.ok data) (some id) st).2.counters id = st.counters id - 1 ∧
    (nonStreamRelease (.error e) (some id) st).2 = st := by
  refine ⟨?_, ?_, ?_, rfl⟩
  · cases evs with
    | nil => exact absurd rfl hevs
    | cons ev rest =>
        have h1 := handle_guard_some sc ev (initStream (some id)) id rfl
        show (runStreamEvents sc rest (handleStreamEvent sc ev (initStream (some id)))).decrements = [id]
        rw [run_guard_none sc rest _ h1.1, h1.2]
        rfl
  · have hnn : ¬ st.counters id - 1 < 0 := by omega
    simp [nonStreamRelease, decrementConcurrency, hnn]
  · have hnn : ¬ st.counters id - 1 < 0 := by omega
    simp [nonStreamRelease, decrementConcurrency, hnn, setCounter_self]

/-- Witness for claim C2's amended theorem: a stream ending in upstream
EOF, and a non-streaming request over the post-acquisition state. -/
theorem claim2_witness :
    (runStreamEvents true [StreamEvent.upstreamDone]
        (initStream (some "default"))).decrements = ["default"] ∧
    (nonStreamRelease (.ok Json.null) (some "default") stOne).2.ops =
      RedisOp.decr "default" :: stOne.ops ∧
    (nonStreamRelease (.ok Json.null) (some "default") stOne).2.counters "default" =
      stOne.counters "default" - 1 ∧
    (nonStreamRelease (.error "boom") (some "default") stOne).2 = stOne :=
  claim2_release_exactly_once_except_parse_error true "default"
    [StreamEvent.upstreamDone] stOne Json.null "boom" (by decide) (by decide)

theorem lookupVar_not_bound (env : List (String × Json)) (x : String)
    (h : ∀ kv ∈ env, kv.1 ≠ x) :
    lookupVar env x = .error ("ReferenceError: " ++ x ++ " is not defined") := by
  induction env with
  | nil => rfl
  | cons kv rest ih =>
      have hne : kv.1 ≠ x := h kv (List.mem_cons_self kv rest)
      simp only [lookupVar, if_neg hne]
      exact ih (fun kv' hkv' => h kv' (List.mem_cons_of_mem kv hkv'))

/-- Claim C4: visible at proxy.ts:916, the non-streaming rewrite calls
`rewriteModelName(data, modelActual, displayModel)`, but the handler
binds `modelDisplay` (line 466), never `displayModel`; so for every
2xx non-streaming response the third argument raises a ReferenceError
(under `tsc` the file does not even typecheck), the outer catch fires,
and the caller receives HTTP 500 instead of the rewritten body. -/
theorem claim4_nonstream_rewrite_raises (env : List (String × Json))
    (dv av : Json)
    (henv : ∀ kv ∈ env, kv.1 ∈ handlerScopeAt916)
    (hd : lookupVar env "data" = .ok dv)
    (ha : lookupVar env "modelActual" = .ok av) :
    ("displayModel" ∉ handlerScopeAt916) ∧
    ("modelDisplay" ∈ handlerScopeAt916) ∧
    line916Rewrite env = .error "ReferenceError: displayModel is not defined" ∧
    nonStreamStatus env = 500 := by
  have hnot : ("displayModel" : String) ∉ handlerScopeAt916 := by decide
  have hmem : ("modelDisplay" : String) ∈ handlerScopeAt916 := by decide
  have hne : ∀ kv ∈ env, kv.1 ≠ "displayModel" := by
    intro kv hkv hEq
    exact hnot (hEq ▸ henv kv hkv)
  have hdisp := lookupVar_not_bound env "displayModel" hne
  have hline : line916Rewrite env =
      .error "ReferenceError: displayModel is not defined" := by
    simp [line916Rewrite, hd, ha, hdisp, Bind.bind, Except.bind]
  exact ⟨hnot, hmem, hline, by simp [nonStreamStatus, hline]⟩

/-- Witness for claim C4's theorem: a concrete handler environment. -/
theorem claim4_witness :
    ("displayModel" ∉ handlerScopeAt916) ∧
    ("modelDisplay" ∈ handlerScopeAt916) ∧
    line916Rewrite c4Env = .error "ReferenceError: displayModel is not defined" ∧
    nonStreamStatus c4Env = 500 :=
  claim4_nonstream_rewrite_raises c4Env (Json.str "ok")
    (Json.str "claude-3-5-haiku-20241022") (by decide) rfl rfl

/-- Claim C5, counterexample: with `settings.system_prompt = "G"` and a
selected model config whose prompt is empty, the handler injects
nothing — the empty model prompt replaces the global prompt
(proxy.ts:500-503) and the injection gate then skips — whereas the
claim says `settings.system_prompt` ("G") would be injected. -/
theorem claim5_counterexample :
    injectedPrompt (some c5Settings) (some "m") = none ∧
    normalizePrompt c5Settings.system_prompt = some "G" := by
  exact ⟨rfl, by decide⟩

/-- Claim C5 (amended): the prompt `P` is the selected model-config's
prompt whenever the selected model id is non-empty and present in
`settings.models`, **even when that prompt is empty or whitespace** —
in which case no prompt is injected at all; `settings.system_prompt` is
used only when no model config is selected (or the id is absent from
`settings.models`), not as a fallback for an empty model prompt. -/
theorem claim5_model_config_prompt_replaces_global
    (settings : ProxySettings) (m : String) (cfg : ModelConfig)
    (hm : m ≠ "") (hlk : List.lookup m settings.models = some cfg) :
    injectedPrompt (some settings) (some m) =
      normalizePrompt (some cfg.system_prompt) ∧
    (cfg.system_prompt = "" → injectedPrompt (some settings) (some m) = none) ∧
    injectedPrompt (some settings) none = normalizePrompt settings.system_prompt := by
  have h1 : resolveSystemPrompt (some settings) (some m) = some cfg.system_prompt := by
    simp [resolveSystemPrompt, hm, hlk]
  refine ⟨?_, ?_, ?_⟩
  · simp [injectedPrompt, h1]
  · intro he
    simp [injectedPrompt, h1, he, normalizePrompt]
  · simp [injectedPrompt, resolveSystemPrompt]

/-- Witness for claim C5's amended theorem: a model config with prompt
"P" over settings whose global prompt is "G". -/
theorem claim5_witness :
    injectedPrompt (some c5Good) (some "m") =
      normalizePrompt (some (ModelConfig.mk "M" "P").system_prompt) ∧
    injectedPrompt (some c5Good) none = normalizePrompt c5Good.system_prompt :=
  ⟨(claim5_model_config_prompt_replaces_global c5Good "m" ⟨"M", "P"⟩
      (by decide) (by decide)).1,
   (claim5_model_config_prompt_replaces_global c5Good "m" ⟨"M", "P"⟩
      (by decide) (by decide)).2.2⟩

theorem tryBackups_storeFail (bs : List BackupProfile) :
    ∀ st : ConcState, tryBackups false bs st = (none, st) := by
  induction bs with
  | nil => intro st; rfl
  | cons b rest ih =>
      intro st
      by_cases hb : b.is_active = false
      · simp [tryBackups, hb, ih st]
      · simp [tryBackups, hb, incrementConcurrency, ih st]

/-- Claim C6, counterexample: with the store erroring (catch branches
taken), the key lookup during authentication yields null and the
handler answers 401 "Invalid API key" — not 500 (part_000:90-93 returns
null, proxy.ts:202-205 maps null to 401); and a failing concurrency
increment returns `allowed=false, current=9999` (part_000:689-693),
which the waterfall treats as saturation and falls through to the
queued default — again no 500. -/
theorem claim6_counterexample :
    authStep (some "Bearer tok") false "2026-10-11" (some (.record c6Key)) =
      AuthResult.invalidKey ∧
    authHttpStatus (authStep (some "Bearer tok") false "2026-10-11"
      (some (.record c6Key))) = some 401 ∧
    incrementConcurrency false stZero "default" 100 = (⟨false, 9999⟩, stZero) ∧
    (selectActiveSource false c6Key [] (some c8Settings) none [c8B1] stZero).1 =
      some (defaultSource (some c8Settings) none true, none) := by
  refine ⟨by decide, by decide, rfl, by decide⟩

/-- Claim C6 (amended): store errors on the critical path are swallowed
rather than surfaced as HTTP 500 — a failing key lookup returns null
and the handler answers **401 Invalid API key**; a failing concurrency
increment returns `allowed=false, current=9999`, which the waterfall
treats as saturation (continuing to backups and the queued default);
`decrement_concurrency` swallows its error; and `get_model_configs` and
announcement reads return empty. -/
theorem claim6_store_errors_not_500
    (h today : String) (stored : Option StoredVal)
    (st : ConcState) (id : String) (limit : Int)
    (settings : Option ProxySettings) (ann : List String)
    (kd : RedisKeyData) (profiles : List (String × APIProfile))
    (envKey : Option String) (bs : List BackupProfile)
    (hhdr : strStartsWith h "Bearer " = true)
    (hpin : kd.selected_api_profile_id = none)
    (hkey : jsOrStr (settings.map (fun s => s.api_key)) envKey ≠ "") :
    authStep (some h) false today stored = AuthResult.invalidKey ∧
    authHttpStatus (authStep (some h) false today stored) = some 401 ∧
    incrementConcurrency false st id limit = (⟨false, 9999⟩, st) ∧
    decrementConcurrency false st id = st ∧
    getModelConfigs false settings = [] ∧
    getAnnouncements false ann = [] ∧
    (selectActiveSource false kd profiles settings envKey bs st).1 =
      some (defaultSource settings envKey true, none) := by
  have hauth : authStep (some h) false today stored = AuthResult.invalidKey := by
    simp [authStep, hhdr, getKeyData]
  refine ⟨hauth, by rw [hauth]; rfl, rfl, rfl, rfl, rfl, ?_⟩
  simp only [selectActiveSource, hpin]
  rw [if_pos hkey]
  simp [incrementConcurrency, tryBackups_storeFail bs st, if_pos hkey]

/-- Witness for claim C6's amended theorem at concrete inputs. -/
theorem claim6_witness :
    authStep (some "Bearer abc") false "2026-10-11" none = AuthResult.invalidKey ∧
    authHttpStatus (authStep (some "Bearer abc") false "2026-10-11" none) =
      some 401 ∧
    incrementConcurrency false stOne "b1" 10 = (⟨false, 9999⟩, stOne) ∧
    decrementConcurrency false stOne "b1" = stOne ∧
    getModelConfigs false (some c8Settings) = [] ∧
    getAnnouncements false ["a1"] = [] ∧
    (selectActiveSource false c6Key [] (some c8Settings) none [c8B1, c8B2]
        stOne).1 = some (defaultSource (some c8Settings) none true, none) :=
  claim6_store_errors_not_500 "Bearer abc" "2026-10-11" none stOne "b1" 10
    (some c8Settings) ["a1"] c6Key [] none [c8B1, c8B2]
    (by decide) (by decide) (by decide)

theorem tryBackups_fst_congr (bs : List BackupProfile) :
    ∀ st st' : ConcState, st.counters = st'.counters →
      (tryBackups true bs st).1 = (tryBackups true bs st').1 := by
  induction bs with
  | nil => intro st st' _; rfl
  | cons b rest ih =>
      intro st st' h
      by_cases hb : b.is_active = false
      · simp only [tryBackups, hb, if_pos rfl]
        exact ih st st' h
      · have hb' : b.is_active = true := by
          cases hx : b.is_active
          · exact absurd hx hb
          · rfl
        simp only [tryBackups, hb']
        by_cases hcap : st.counters b.id + 1 ≥ jsNumOr b.concurrency_limit 10
        · have hcap' : st'.counters b.id + 1 ≥ jsNumOr b.concurrency_limit 10 := by
            rw [← h]; exact hcap
          have e1 : (incrementConcurrency true st b.id
              (jsNumOr b.concurrency_limit 10)).1.allowed = false := by
            rw [incConc_fst]; simp [hcap]
          have e2 : (incrementConcurrency true st' b.id
              (jsNumOr b.concurrency_limit 10)).1.allowed = false := by
            rw [incConc_fst]; simp [hcap']
          simp only [e1, e2, Bool.false_eq_true, if_false]
          exact ih _ _ (by
            rw [incConc_fail_counters _ _ _ hcap, incConc_fail_counters _ _ _ hcap', h])
        · have hcap' : ¬ st'.counters b.id + 1 ≥ jsNumOr b.concurrency_limit 10 := by
            rw [← h]; exact hcap
          have e1 : (incrementConcurrency true st b.id
              (jsNumOr b.concurrency_limit 10)).1.allowed = true := by
            rw [incConc_fst]; simp [hcap]
          have e2 : (incrementConcurrency true st' b.id
              (jsNumOr b.concurrency_limit 10)).1.allowed = true := by
            rw [incConc_fst]; simp [hcap']
          simp [e1, e2]

theorem tryBackups_fst_inactive (b : BackupProfile) (rest : List BackupProfile)
    (st : ConcState) (hb : b.is_active = false) :
    tryBackups true (b :: rest) st = tryBackups true rest st := by
  simp [tryBackups, hb]

theorem tryBackups_fst_acquired (b : BackupProfile) (rest : List BackupProfile)
    (st : ConcState) (hb : b.is_active = true)
    (hcap : st.counters b.id + 1 < jsNumOr b.concurrency_limit 10) :
    (tryBackups true (b :: rest) st).1 = some (backupSource b, b.id) := by
  have hn : ¬ st.counters b.id + 1 ≥ jsNumOr b.concurrency_limit 10 := by omega
  have e : (incrementConcurrency true st b.id
      (jsNumOr b.concurrency_limit 10)).1.allowed = true := by
    rw [incConc_fst, if_neg hn]
  simp [tryBackups, hb, e]

theorem tryBackups_fst_denied (b : BackupProfile) (rest : List BackupProfile)
    (st : ConcState) (hb : b.is_active = true)
    (hcap : st.counters b.id + 1 ≥ jsNumOr b.concurrency_limit 10) :
    (tryBackups true (b :: rest) st).1 = (tryBackups true rest st).1 := by
  have e : (incrementConcurrency true st b.id
      (jsNumOr b.concurrency_limit 10)).1.allowed = false := by
    rw [incConc_fst]; simp [hcap]
  simp only [tryBackups, hb, e, Bool.false_eq_true, if_false]
  exact tryBackups_fst_congr rest _ st (incConc_fail_counters _ _ _ hcap)

theorem select_fst_default_acquired (kd : RedisKeyData)
    (profiles : List (String × APIProfile)) (settings : Option ProxySettings)
    (envKey : Option String) (bs : List BackupProfile) (st : ConcState)
    (hpin : kd.selected_api_profile_id = none)
    (hkey : jsOrStr (settings.map (fun s => s.api_key)) envKey ≠ "")
    (hcap : st.counters "default" + 1 <
      jsNumOr (jsOrNum (settings.bind (fun s => s.concurrency_limit)) 100) 100) :
    (selectActiveSource true kd profiles settings envKey bs st).1 =
      some (defaultSource settings envKey false, some "default") := by
  have hn : ¬ st.counters "default" + 1 ≥
      jsNumOr (jsOrNum (settings.bind (fun s => s.concurrency_limit)) 100) 100 := by omega
  have e : (incrementConcurrency true st "default"
      (jsNumOr (jsOrNum (settings.bind (fun s => s.concurrency_limit)) 100) 100)).1.allowed
        = true := by
    rw [incConc_fst, if_neg hn]
  simp only [selectActiveSource, hpin]
  rw [if_pos hkey]
  simp [e]

theorem select_fst_default_failed (kd : RedisKeyData)
    (profiles : List (String × APIProfile)) (settings : Option ProxySettings)
    (envKey : Option String) (bs : List BackupProfile) (st : ConcState)
    (hpin : kd.selected_api_profile_id = none)
    (hkey : jsOrStr (settings.map (fun s => s.api_key)) envKey ≠ "")
    (hcap : st.counters "default" + 1 ≥
      jsNumOr (jsOrNum (settings.bind (fun s => s.concurrency_limit)) 100) 100) :
    (selectActiveSource true kd profiles settings envKey bs st).1 =
      (match (tryBackups true bs st).1 with
       | some (src, bid) => some (src, some bid)
       | none => some (defaultSource settings envKey true, none)) := by
  have e : (incrementConcurrency true st "default"
      (jsNumOr (jsOrNum (settings.bind (fun s => s.concurrency_limit)) 100) 100)).1.allowed
        = false := by
    rw [incConc_fst]; simp [hcap]
  simp only [selectActiveSource, hpin]
  rw [if_pos hkey]
  simp only [e, Bool.false_eq_true, if_false]
  have hcong := tryBackups_fst_congr bs
    ((incrementConcurrency true st "default"
      (jsNumOr (jsOrNum (settings.bind (fun s => s.concurrency_limit)) 100) 100)).2) st
    (incConc_fail_counters _ _ _ hcap)
  rcases h2 : tryBackups true bs
      ((incrementConcurrency true st "default"
        (jsNumOr (jsOrNum (settings.bind (fun s => s.concurrency_limit)) 100) 100)).2)
    with ⟨tb, stb⟩
  have htb : tb = (tryBackups true bs st).1 := by
    rw [← hcong, h2]
  cases htb2 : (tryBackups true bs st).1 with
  | none =>
      rw [htb2] at htb
      subst htb
      simp [h2]
      rw [if_neg hkey]
  | some p =>
      rcases p with ⟨src, bid⟩
      rw [htb2] at htb
      subst htb
      simp [h2]

/-- Claim C8: with no pinned profile the selector is a strict
waterfall.  A default with capacity always wins (owner `"default"`); a
saturated default falls to the backups in their stored order, skipping
inactive entries and never reordering, and the first backup whose
acquisition succeeds is selected (B1 when it has capacity; B2 when
default and B1 are saturated); and when every acquisition fails but a
default api key exists, the default is returned queued with no slot
acquired. -/
theorem claim8_waterfall_order
    (kd : RedisKeyData) (profiles : List (String × APIProfile))
    (settings : Option ProxySettings) (envKey : Option String)
    (B0 B1 B2 B3 : BackupProfile) (st1 st2 st3 : ConcState)
    (hpin : kd.selected_api_profile_id = none)
    (hkey : jsOrStr (settings.map (fun s => s.api_key)) envKey ≠ "")
    (hB0 : B0.is_active = false)
    (hB1 : B1.is_active = true) (hB2 : B2.is_active = true)
    (hB3 : B3.is_active = true)
    (h1d : st1.counters "default" + 1 ≥
      jsNumOr (jsOrNum (settings.bind (fun s => s.concurrency_limit)) 100) 100)
    (h1b1 : st1.counters B1.id + 1 < jsNumOr B1.concurrency_limit 10)
    (h2d : st2.counters "default" + 1 ≥
      jsNumOr (jsOrNum (settings.bind (fun s => s.concurrency_limit)) 100) 100)
    (h2b1 : st2.counters B1.id + 1 ≥ jsNumOr B1.concurrency_limit 10)
    (h2b2 : st2.counters B2.id + 1 < jsNumOr B2.concurrency_limit 10)
    (h3d : st3.counters "default" + 1 ≥
      jsNumOr (jsOrNum (settings.bind (fun s => s.concurrency_limit)) 100) 100)
    (h3b1 : st3.counters B1.id + 1 ≥ jsNumOr B1.concurrency_limit 10)
    (h3b2 : st3.counters B2.id + 1 ≥ jsNumOr B2.concurrency_limit 10)
    (h3b3 : st3.counters B3.id + 1 ≥ jsNumOr B3.concurrency_limit 10) :
    (selectActiveSource true kd profiles settings envKey [B1, B2, B3] st1).1 =
      some (backupSource B1, some B1.id) ∧
    (selectActiveSource true kd profiles settings envKey [B0, B1, B2, B3] st1).1 =
      some (backupSource B1, some B1.id) ∧
    (selectActiveSource true kd profiles settings envKey [B1, B2, B3] st2).1 =
      some (backupSource B2, some B2.id) ∧
    (selectActiveSource true kd profiles settings envKey [B1, B2, B3] st3).1 =
      some (defaultSource settings envKey true, none) ∧
    (∀ st : ConcState, st.counters "default" + 1 <
        jsNumOr (jsOrNum (settings.bind (fun s => s.concurrency_limit)) 100) 100 →
      (selectActiveSource true kd profiles settings envKey [B1, B2, B3] st).1 =
        some (defaultSource settings envKey false, some "default")) := by
  refine ⟨?_, ?_, ?_, ?_, ?_⟩
  · rw [select_fst_default_failed kd profiles settings envKey [B1, B2, B3] st1
      hpin hkey h1d]
    rw [tryBackups_fst_acquired B1 [B2, B3] st1 hB1 h1b1]
  · rw [select_fst_default_failed kd profiles settings envKey [B0, B1, B2, B3] st1
      hpin hkey h1d]
    rw [tryBackups_fst_inactive B0 [B1, B2, B3] st1 hB0]
    rw [tryBackups_fst_acquired B1 [B2, B3] st1 hB1 h1b1]
  · rw [select_fst_default_failed kd profiles settings envKey [B1, B2, B3] st2
      hpin hkey h2d]
    rw [tryBackups_fst_denied B1 [B2, B3] st2 hB1 h2b1]
    rw [tryBackups_fst_acquired B2 [B3] st2 hB2 h2b2]
  · rw [select_fst_default_failed kd profiles settings envKey [B1, B2, B3] st3
      hpin hkey h3d]
    rw [tryBackups_fst_denied B1 [B2, B3] st3 hB1 h3b1]
    rw [tryBackups_fst_denied B2 [B3] st3 hB2 h3b2]
    rw [tryBackups_fst_denied B3 [] st3 hB3 h3b3]
    rfl
  · intro st hst
    exact select_fst_default_acquired kd profiles settings envKey [B1, B2, B3] st
      hpin hkey hst

/-- Witness for claim C8's theorem: concrete settings, three active
backups plus one inactive one, and the three saturation scenarios. -/
theorem claim8_witness :
    (selectActiveSource true c6Key [] (some c8Settings) none [c8B1, c8B2, c8B3]
        c8St1).1 = some (backupSource c8B1, some c8B1.id) ∧
    (selectActiveSource true c6Key [] (some c8Settings) none
        [c8B0, c8B1, c8B2, c8B3] c8St1).1 =
      some (backupSource c8B1, some c8B1.id) ∧
    (selectActiveSource true c6Key [] (some c8Settings) none [c8B1, c8B2, c8B3]
        c8St2).1 = some (backupSource c8B2, some c8B2.id) ∧
    (selectActiveSource true c6Key [] (some c8Settings) none [c8B1, c8B2, c8B3]
        c8St3).1 = some (defaultSource (some c8Settings) none true, none) ∧
    (selectActiveSource true c6Key [] (some c8Settings) none [c8B1, c8B2, c8B3]
        stZero).1 = some (defaultSource (some c8Settings) none false, some "default") := by
  have h := claim8_waterfall_order c6Key [] (some c8Settings) none
    c8B0 c8B1 c8B2 c8B3 c8St1 c8St2 c8St3
    rfl (by decide) rfl rfl rfl rfl
    (by decide) (by decide) (by decide) (by decide) (by decide)
    (by decide) (by decide) (by decide) (by decide)
  exact ⟨h.1, h.2.1, h.2.2.1, h.2.2.2.1, h.2.2.2.2 stZero (by decide)⟩

/-- Claim C1 (spec-modelled): when the provided conversationId equals
the stored `last_conversation_id` and less than 60 000 ms have passed
since `last_request_timestamp`, `increment_usage` returns
`allowed=true, shouldIncrement=false` and leaves the record (hence
`usage_today.count`) unchanged; consequently two calls with the same
conversationId increment the count exactly once within the 60 s window
and twice beyond it. -/
theorem claim1_turn_dedup
    (data : RedisKeyData) (cid : String) (t now : Int)
    (d0 : RedisKeyData) (cid0 : String) (now1 now2 : Int)
    (hcid : data.last_conversation_id = some cid)
    (hts : data.last_request_timestamp = some t)
    (hwin : now - t < 60000)
    (hallow : data.usage_today.count < data.daily_limit)
    (h0 : d0.last_conversation_id = none)
    (hroom : d0.usage_today.count + 1 < d0.daily_limit) :
    ((incrementUsage data (some cid) now).1.allowed = true ∧
     (incrementUsage data (some cid) now).1.shouldIncrement = false ∧
     (incrementUsage data (some cid) now).2 = data) ∧
    (now2 - now1 < 60000 →
      (incrementUsage (incrementUsage d0 (some cid0) now1).2
          (some cid0) now2).2.usage_today.count = d0.usage_today.count + 1) ∧
    (now2 - now1 ≥ 60000 →
      (incrementUsage (incrementUsage d0 (some cid0) now1).2
          (some cid0) now2).2.usage_today.count = d0.usage_today.count + 2) := by
  have hnot : ¬ data.usage_today.count ≥ data.daily_limit := by omega
  have hnot0 : ¬ d0.usage_today.count ≥ d0.daily_limit := by omega
  have hd1 : (incrementUsage d0 (some cid0) now1).2 =
      { d0 with
          usage_today := ⟨d0.usage_today.date, d0.usage_today.count + 1⟩,
          last_conversation_id := some cid0,
          last_request_timestamp := some now1 } := by
    simp [incrementUsage, hnot0, h0]
  have hnot1 : ¬ d0.usage_today.count + 1 ≥ d0.daily_limit := by omega
  refine ⟨?_, ?_, ?_⟩
  · simp [incrementUsage, hnot, hcid, hts, hwin]
  · intro hw
    rw [hd1]
    simp [incrementUsage, hnot1, hw]
  · intro hw
    have hnw : ¬ now2 - now1 < 60000 := by omega
    rw [hd1]
    simp [incrementUsage, hnot1, hnw]

/-- Witness for claim C1's theorem: a key in the dedup window, and a
fresh key charged twice 1 s apart versus 69 s apart. -/
theorem claim1_witness :
    ((incrementUsage c1Key (some "203.0.113.5:Mozilla") 60999).1.allowed = true ∧
     (incrementUsage c1Key (some "203.0.113.5:Mozilla") 60999).1.shouldIncrement
        = false ∧
     (incrementUsage c1Key (some "203.0.113.5:Mozilla") 60999).2 = c1Key) ∧
    (incrementUsage (incrementUsage c1Fresh (some "ip:ua") 1000).2
        (some "ip:ua") 2000).2.usage_today.count =
      c1Fresh.usage_today.count + 1 ∧
    (incrementUsage (incrementUsage c1Fresh (some "ip:ua") 1000).2
        (some "ip:ua") 70000).2.usage_today.count =
      c1Fresh.usage_today.count + 2 :=
  ⟨(claim1_turn_dedup c1Key "203.0.113.5:Mozilla" 1000 60999 c1Fresh "ip:ua"
      1000 2000 rfl rfl (by decide) (by decide) rfl (by decide)).1,
   (claim1_turn_dedup c1Key "203.0.113.5:Mozilla" 1000 60999 c1Fresh "ip:ua"
      1000 2000 rfl rfl (by decide) (by decide) rfl (by decide)).2.1 (by decide),
   (claim1_turn_dedup c1Key "203.0.113.5:Mozilla" 1000 60999 c1Fresh "ip:ua"
      1000 70000 rfl rfl (by decide) (by decide) rfl (by decide)).2.2 (by decide)⟩

/-- Claim C7, counterexample: `try_acquire` with limit 0 does return
`allowed=false` and nets the counter back to 0, but it mutates the
store — an `INCR`, the 600 s TTL (the counter became 1) and a `DECR`
are all issued, refuting "no increment, decrement, or TTL is
performed"; and an active backup whose configured `concurrency_limit`
is 0 is nevertheless acquired by the waterfall, because the handler
turns the falsy 0 into 10 (`Number(backup.concurrency_limit) || 10`,
proxy.ts:402) before calling the ledger — refuting "disabled for
acquisition". -/
theorem claim7_counterexample :
    (incrementConcurrency true stZero "backup-1" 0).1.allowed = false ∧
    (incrementConcurrency true stZero "backup-1" 0).2.ops =
      [RedisOp.decr "backup-1", RedisOp.expire "backup-1" 600,
        RedisOp.incr "backup-1"] ∧
    (incrementConcurrency true stZero "backup-1" 0).2.ops ≠ stZero.ops ∧
    (tryBackups true [c7B0] stZero).1 = some (backupSource c7B0, c7B0.id) := by
  refine ⟨by decide, by decide, by decide, by decide⟩

/-- Claim C7 (amended): for a non-negative counter, `try_acquire` with
`limit = 0` returns `allowed=false` and restores the counter value, but
it does mutate the store — an `INCR`, the 600 s TTL when the counter
was previously 0, and a `DECR` are all issued.  Moreover a configured
concurrency limit of 0 does not disable a source, because the handler
replaces the falsy 0 before it reaches the ledger: an active backup
configured with limit 0 is acquired under the effective limit 10
(proxy.ts:402), and a default whose `settings.concurrency_limit` is 0
is acquired under the effective limit 100 (proxy.ts:317 and :369). -/
theorem claim7_limit_zero_rejects_but_mutates (st : ConcState) (id : String)
    (b : BackupProfile) (rest : List BackupProfile) (stb : ConcState)
    (kd : RedisKeyData) (profiles : List (String × APIProfile))
    (s : ProxySettings) (envKey : Option String) (bs : List BackupProfile)
    (std : ConcState)
    (h : 0 ≤ st.counters id)
    (hba : b.is_active = true) (hbl : b.concurrency_limit = 0)
    (hbc : stb.counters b.id + 1 < 10)
    (hpin : kd.selected_api_profile_id = none)
    (hkey : jsOrStr ((some s).map (fun x => x.api_key)) envKey ≠ "")
    (hsl : s.concurrency_limit = some 0)
    (hdc : std.counters "default" + 1 < 100) :
    (incrementConcurrency true st id 0).1.allowed = false ∧
    (incrementConcurrency true st id 0).2.counters id = st.counters id ∧
    (incrementConcurrency true st id 0).2.ops =
      (if st.counters id + 1 = 1
        then [RedisOp.decr id, RedisOp.expire id 600, RedisOp.incr id]
        else [RedisOp.decr id, RedisOp.incr id]) ++ st.ops ∧
    (tryBackups true (b :: rest) stb).1 = some (backupSource b, b.id) ∧
    (selectActiveSource true kd profiles (some s) envKey bs std).1 =
      some (defaultSource (some s) envKey false, some "default") := by
  have hge : st.counters id + 1 ≥ (0 : Int) := by omega
  refine ⟨?_, ?_, ?_, ?_, ?_⟩
  · rw [incConc_fst]
    simp [hge]
  · rw [incConc_fail_counters st id 0 hge]
  · simp only [incrementConcurrency, if_true]
    split_ifs with h1 <;> simp [h1]
  · have hcap : stb.counters b.id + 1 < jsNumOr b.concurrency_limit 10 := by
      rw [hbl]
      simpa [jsNumOr] using hbc
    exact tryBackups_fst_acquired b rest stb hba hcap
  · refine select_fst_default_acquired kd profiles (some s) envKey bs std hpin hkey ?_
    simpa [hsl, jsOrNum, jsNumOr] using hdc

/-- Witness for claim C7's amended theorem: the empty ledger, a backup
configured with limit 0, and settings configured with limit 0. -/
theorem claim7_witness :
    (incrementConcurrency true stZero "b" 0).1.allowed = false ∧
    (incrementConcurrency true stZero "b" 0).2.counters "b" = stZero.counters "b" ∧
    (incrementConcurrency true stZero "b" 0).2.ops =
      (if stZero.counters "b" + 1 = 1
        then [RedisOp.decr "b", RedisOp.expire "b" 600, RedisOp.incr "b"]
        else [RedisOp.decr "b", RedisOp.incr "b"]) ++ stZero.ops ∧
    (tryBackups true [c7B0] stZero).1 = some (backupSource c7B0, c7B0.id) ∧
    (selectActiveSource true c6Key [] (some c7Settings) none [c7B0] stZero).1 =
      some (defaultSource (some c7Settings) none false, some "default") :=
  claim7_limit_zero_rejects_but_mutates stZero "b" c7B0 [] stZero c6Key []
    c7Settings none [c7B0] stZero
    (by decide) rfl rfl (by decide) rfl (by decide) rfl (by decide)
